import Mathlib

/-!
Shallow embedding of the Community Fridge Probe firmware decision layer
(`src/app_logic.c`, `src/led_status.c`, `sensors.c`, `door_sensor.c`,
`include/config.h`).  C `float` values are modelled as exact rationals `ℚ`;
machine integers are modelled as `ℕ` (the millisecond timestamps in the
claims below never approach the `uint32_t` range, so overflow does not
matter for any statement proved here).
-/

-- =============================================================================
-- Configuration constants (include/config.h)
-- =============================================================================

def SAMPLE_INTERVAL_MS : ℕ := 2000

def TELEMETRY_INTERVAL_MS : ℕ := 5000

def HISTORY_BUFFER_SIZE : ℕ := 32

def TEMP_OK_MAX_C : ℚ := 7

def TEMP_VALID_MIN_C : ℚ := -40

def TEMP_VALID_MAX_C : ℚ := 125

def DEBOUNCE_SAMPLES : ℕ := 5

def LED_SLOW_BLINK_MS : ℕ := 1000

def LED_FAST_BLINK_MS : ℕ := 200

def LED_ERROR_FLASH_MS : ℕ := 100

def LED_ERROR_PAUSE_MS : ℕ := 700

-- =============================================================================
-- Status enumeration (include/led_status.h)
-- =============================================================================

/-- The `status_t` enum of `led_status.h`: exactly four variants. -/
inductive status_t where
  | STATUS_OK
  | STATUS_DOOR_OPEN
  | STATUS_TOO_WARM
  | STATUS_ERROR
deriving DecidableEq, Repr

-- =============================================================================
-- Sensor validity (sensors.c, sensors_is_reading_valid)
-- =============================================================================

/-- Embedding of `sensors_is_reading_valid` of `sensors.c`:
`return (temp_c >= TEMP_VALID_MIN_C) && (temp_c <= TEMP_VALID_MAX_C);` -/
def sensors_is_reading_valid (temp_c : ℚ) : Bool :=
  decide (TEMP_VALID_MIN_C ≤ temp_c) && decide (temp_c ≤ TEMP_VALID_MAX_C)

-- =============================================================================
-- Status resolver (app_logic.c, determine_status)
-- =============================================================================

/-- Embedding of `determine_status` of `app_logic.c`.  The C function reads the module
globals `current_temp`, `door_open` and `average_temp`; the embedding takes
those three values as arguments.  Priority: ERROR > DOOR_OPEN > TOO_WARM > OK,
first match wins. -/
def determine_status (current_temp : ℚ) (door_open : Bool)
    (average_temp : ℚ) : status_t :=
  if ! sensors_is_reading_valid current_temp then .STATUS_ERROR
  else if door_open then .STATUS_DOOR_OPEN
  else if average_temp > TEMP_OK_MAX_C then .STATUS_TOO_WARM
  else .STATUS_OK

-- =============================================================================
-- Temperature history ring buffer (app_logic.c)
-- =============================================================================

/-- The three module globals of `app_logic.c` that make up the circular
temperature history: `temp_history` (an array of `HISTORY_BUFFER_SIZE`
floats, modelled as a total function whose indices `≥ HISTORY_BUFFER_SIZE`
are never read or written), `history_head` and `history_count`. -/
structure HistoryState where
  temp_history : ℕ → ℚ
  history_head : ℕ
  history_count : ℕ

/-- The history part of `app_init`: `memset(temp_history, 0, ...)`,
`history_head = 0`, `history_count = 0`. -/
def historyInit : HistoryState :=
  { temp_history := fun _ => 0, history_head := 0, history_count := 0 }

/-- Embedding of `add_to_history` of `app_logic.c`: write at `history_head`, advance the
head modulo `HISTORY_BUFFER_SIZE`, saturate the count at the capacity. -/
def add_to_history (s : HistoryState) (temp : ℚ) : HistoryState :=
  { temp_history := Function.update s.temp_history s.history_head temp,
    history_head := (s.history_head + 1) % HISTORY_BUFFER_SIZE,
    history_count :=
      if s.history_count < HISTORY_BUFFER_SIZE then s.history_count + 1
      else s.history_count }

/-- Embedding of `calculate_average` of `app_logic.c`: `0.0` when the buffer is empty,
otherwise the sum of entries `0 .. history_count - 1` divided by the count. -/
def calculate_average (s : HistoryState) : ℚ :=
  if s.history_count = 0 then 0
  else (∑ i in Finset.range s.history_count, s.temp_history i) / s.history_count

/-- Pushing a whole list of samples (in chronological order) into the history
buffer, starting from the reset buffer of `app_init`. -/
def pushAll (l : List ℚ) : HistoryState :=
  l.foldl add_to_history historyInit

-- =============================================================================
-- LED status indicator state machine (led_status.c)
-- =============================================================================

/-- The module globals of `led_status.c`: the displayed status, the physical
LED level, the timestamp of the last level change (`0` doubles as the
"uninitialized" sentinel) and the ERROR-pattern phase counter
`error_flash_state`. -/
structure LedState where
  current_status : status_t
  led_on : Bool
  last_toggle_ms : ℕ
  error_flash_state : ℕ
deriving DecidableEq, Repr

/-- State after `led_status_init`: LED driven on, and the static initializers
of `led_status.c` (`current_status = STATUS_OK`, `last_toggle_ms = 0`,
`error_flash_state = 0`). -/
def led_init : LedState :=
  { current_status := .STATUS_OK, led_on := true,
    last_toggle_ms := 0, error_flash_state := 0 }

/-- Embedding of `led_status_set` of `led_status.c`: on a status change, store the new
status and reset the pattern state (`error_flash_state = 0`,
`last_toggle_ms = 0`); otherwise do nothing. -/
def led_status_set (s : LedState) (status : status_t) : LedState :=
  if status ≠ s.current_status then
    { s with current_status := status,
             error_flash_state := 0, last_toggle_ms := 0 }
  else s

/-- Embedding of `set_led` of `led_status.c` (the `gpio_put` side effect is the `led_on`
field itself in this model). -/
def set_led (s : LedState) (level : Bool) : LedState :=
  { s with led_on := level }

/-- Embedding of `update_ok` of `led_status.c`: hold the LED solid on; `millis` unused. -/
def update_ok (s : LedState) (millis : ℕ) : LedState :=
  if ! s.led_on then set_led s true else s

/-- Embedding of `update_blink` of `led_status.c`: initialize on the sentinel timestamp by
forcing the LED on and stamping the time; afterwards invert the level each
time `period_ms / 2` has elapsed. -/
def update_blink (s : LedState) (millis period_ms : ℕ) : LedState :=
  if s.last_toggle_ms = 0 then
    set_led { s with last_toggle_ms := millis } true
  else if millis - s.last_toggle_ms ≥ period_ms / 2 then
    { set_led s (! s.led_on) with last_toggle_ms := millis }
  else s

/-- Embedding of `update_door_open` of `led_status.c`: blink with full cycle
`LED_SLOW_BLINK_MS * 2`. -/
def update_door_open (s : LedState) (millis : ℕ) : LedState :=
  update_blink s millis (LED_SLOW_BLINK_MS * 2)

/-- Embedding of `update_too_warm` of `led_status.c`: blink with full cycle
`LED_FAST_BLINK_MS * 2`. -/
def update_too_warm (s : LedState) (millis : ℕ) : LedState :=
  update_blink s millis (LED_FAST_BLINK_MS * 2)

/-- Embedding of `update_error` of `led_status.c`: six-phase triple-flash pattern.  On the
sentinel timestamp, force the LED on, stamp the time and reset the phase;
afterwards, once the current phase's duration has elapsed, advance the phase
modulo 6, stamp the time and drive the LED on exactly in even phases. -/
def update_error (s : LedState) (millis : ℕ) : LedState :=
  if s.last_toggle_ms = 0 then
    { set_led s true with last_toggle_ms := millis, error_flash_state := 0 }
  else
    let state_duration :=
      if s.error_flash_state = 5 then LED_ERROR_PAUSE_MS else LED_ERROR_FLASH_MS
    if millis - s.last_toggle_ms ≥ state_duration then
      let st := (s.error_flash_state + 1) % 6
      { set_led s (decide (st % 2 = 0)) with
          error_flash_state := st, last_toggle_ms := millis }
    else s

/-- Embedding of `led_status_update` of `led_status.c`: dispatch on the displayed status. -/
def led_status_update (s : LedState) (millis_since_boot : ℕ) : LedState :=
  match s.current_status with
  | .STATUS_OK => update_ok s millis_since_boot
  | .STATUS_DOOR_OPEN => update_door_open s millis_since_boot
  | .STATUS_TOO_WARM => update_too_warm s millis_since_boot
  | .STATUS_ERROR => update_error s millis_since_boot

/-- Embedding of `led_status_to_string` of `led_status.c`.  The C switch has a `default`
case returning `"UNKNOWN"`, unreachable for the four-variant enum. -/
def led_status_to_string : status_t → String
  | .STATUS_OK => "OK"
  | .STATUS_DOOR_OPEN => "DOOR_OPEN"
  | .STATUS_TOO_WARM => "TOO_WARM"
  | .STATUS_ERROR => "ERROR"

/-- The duration of ERROR-pattern phase `p`, as computed inside
`update_error`: the long pause for phase 5, the flash duration otherwise. -/
def errDuration (p : ℕ) : ℕ :=
  if p = 5 then LED_ERROR_PAUSE_MS else LED_ERROR_FLASH_MS

/-- One externally triggered operation on the LED indicator machine: a
`led_status_set` call or a `led_status_update` call at some time. -/
inductive LedOp where
  | setStatus (status : status_t)
  | update (millis : ℕ)

/-- Apply one operation to the LED state. -/
def ledStep (s : LedState) : LedOp → LedState
  | .setStatus status => led_status_set s status
  | .update millis => led_status_update s millis

/-- The LED state reached from `led_status_init` by a sequence of
`led_status_set` / `led_status_update` calls: the reachable states of the
indicator machine. -/
def ledRun (ops : List LedOp) : LedState :=
  ops.foldl ledStep led_init

/-- The ERROR-pattern run sampled at its timing boundaries: reset the machine
into `STATUS_ERROR` from `led_status_init`, update first at time `t0`, then
call `led_status_update` exactly when the current phase's duration has
elapsed. -/
def errorRun (t0 : ℕ) : ℕ → LedState
  | 0 => led_status_update (led_status_set led_init .STATUS_ERROR) t0
  | k + 1 =>
    let s := errorRun t0 k
    led_status_update s (s.last_toggle_ms + errDuration s.error_flash_state)

-- =============================================================================
-- Telemetry line (app_logic.c, print_telemetry)
-- =============================================================================

/-- Model of C `printf` `"%.1f"` applied to the exact rational value: round
`10 * x` to the nearest integer (`⌊10 * x + 1/2⌋`, written out on the
numerator and denominator so the kernel can evaluate it) and render sign,
integer part, a dot and the single tenths digit. -/
def fmt1 (x : ℚ) : String :=
  let y := 10 * x
  let n : ℤ := (2 * y.num + (y.den : ℤ)).fdiv (2 * (y.den : ℤ))
  (if n < 0 then "-" else "")
    ++ toString (n.natAbs / 10) ++ "." ++ toString (n.natAbs % 10)

/-- Embedding of `print_telemetry` of `app_logic.c`: the single line written by
`printf("t=%.1fC, avg=%.1fC, door=%s, status=%s\n", ...)`, returned as a
string. -/
def print_telemetry (current_temp average_temp : ℚ) (door_open : Bool)
    (current_status : status_t) : String :=
  "t=" ++ fmt1 current_temp ++ "C, avg=" ++ fmt1 average_temp ++ "C, door="
    ++ (if door_open then "open" else "closed")
    ++ ", status=" ++ led_status_to_string current_status ++ "\n"

-- =============================================================================
-- Door sensor debouncer (door_sensor.c, door_sensor_is_open)
-- =============================================================================

/-- Embedding of `door_sensor_is_open` of `door_sensor.c`, as a function of the
`DEBOUNCE_SAMPLES` raw `gpio_get` samples read during one call: count the
"open" samples; all open → open, all closed → closed, mixed → majority
(`open_count > DEBOUNCE_SAMPLES / 2`). -/
def door_sensor_is_open (samples : List Bool) : Bool :=
  let open_count := samples.count true
  if open_count = DEBOUNCE_SAMPLES then true
  else if open_count = 0 then false
  else decide (open_count > DEBOUNCE_SAMPLES / 2)

-- =============================================================================
-- Control loop (app_logic.c, app_init / app_update)
-- =============================================================================

/-- The remaining module globals of `app_logic.c`: cached readings, status
and the two period timers, plus the history buffer. -/
structure AppState where
  hist : HistoryState
  current_temp : ℚ
  average_temp : ℚ
  door_open : Bool
  current_status : status_t
  last_sample_ms : ℕ
  last_telemetry_ms : ℕ
  first_update : Bool

/-- Embedding of `app_init` of `app_logic.c`. -/
def app_init : AppState :=
  { hist := historyInit, current_temp := 0, average_temp := 0,
    door_open := false, current_status := .STATUS_OK,
    last_sample_ms := 0, last_telemetry_ms := 0, first_update := true }

/-- Embedding of `app_update` of `app_logic.c`.  The external reads
`sensors_read_temperature_c()` and `door_sensor_is_open()` are supplied as
the arguments `temp_reading` and `door_reading`; the `printf` side effects
are returned as the list of emitted lines, and the `led_status_set` call is
applied to the supplied LED state. -/
def app_update (s : AppState) (led : LedState) (millis_since_boot : ℕ)
    (temp_reading : ℚ) (door_reading : Bool) :
    AppState × LedState × List String :=
  if s.first_update then
    let current_temp := temp_reading
    let hist := add_to_history s.hist current_temp
    let average_temp := calculate_average hist
    let door_open := door_reading
    let current_status := determine_status current_temp door_open average_temp
    ({ s with last_sample_ms := millis_since_boot,
              last_telemetry_ms := millis_since_boot,
              first_update := false,
              current_temp := current_temp, hist := hist,
              average_temp := average_temp, door_open := door_open,
              current_status := current_status },
     led_status_set led current_status,
     ["=== Fridge Probe Started ===\n",
      print_telemetry current_temp average_temp door_open current_status])
  else
    let sampled :=
      if millis_since_boot - s.last_sample_ms ≥ SAMPLE_INTERVAL_MS then
        let current_temp := temp_reading
        let door_open := door_reading
        let hist := add_to_history s.hist current_temp
        let average_temp := calculate_average hist
        let current_status :=
          determine_status current_temp door_open average_temp
        ({ s with last_sample_ms := millis_since_boot,
                  current_temp := current_temp, door_open := door_open,
                  hist := hist, average_temp := average_temp,
                  current_status := current_status },
         led_status_set led current_status)
      else (s, led)
    if millis_since_boot - sampled.1.last_telemetry_ms ≥ TELEMETRY_INTERVAL_MS then
      ({ sampled.1 with last_telemetry_ms := millis_since_boot }, sampled.2,
       [print_telemetry sampled.1.current_temp sampled.1.average_temp
          sampled.1.door_open sampled.1.current_status])
    else (sampled.1, sampled.2, [])

-- =============================================================================
-- Sanity examples (concrete evaluations of the embedding)
-- =============================================================================

example : determine_status 200 true 100 = .STATUS_ERROR := by decide
example : determine_status 4 true 100 = .STATUS_DOOR_OPEN := by decide
example : determine_status 4 false 8 = .STATUS_TOO_WARM := by decide
example : determine_status 7 false 7 = .STATUS_OK := by decide
example : sensors_is_reading_valid (-40) = true := by decide
example : sensors_is_reading_valid 125 = true := by decide
example : sensors_is_reading_valid (-41) = false := by decide

-- =============================================================================
-- C1: resolver priority order and determinism
-- =============================================================================

/-- C1: the status resolver evaluates its four conditions in fixed priority
order with first match winning (Error > DoorOpen > TooWarm > Ok): an invalid
latest reading yields `STATUS_ERROR` regardless of door state and average;
otherwise an open debounced door yields `STATUS_DOOR_OPEN`; otherwise an
average strictly above the warm threshold yields `STATUS_TOO_WARM`; otherwise
`STATUS_OK`.  In particular an invalid reading (200 °C) with door open and
average 100 yields `STATUS_ERROR`, and the resolver is deterministic. -/
theorem resolver_priority_order :
    (∀ (t a : ℚ) (d : Bool), sensors_is_reading_valid t = false →
        determine_status t d a = .STATUS_ERROR) ∧
    (∀ t a : ℚ, sensors_is_reading_valid t = true →
        determine_status t true a = .STATUS_DOOR_OPEN) ∧
    (∀ t a : ℚ, sensors_is_reading_valid t = true → TEMP_OK_MAX_C < a →
        determine_status t false a = .STATUS_TOO_WARM) ∧
    (∀ t a : ℚ, sensors_is_reading_valid t = true → a ≤ TEMP_OK_MAX_C →
        determine_status t false a = .STATUS_OK) ∧
    determine_status 200 true 100 = .STATUS_ERROR ∧
    (∀ (t a t' a' : ℚ) (d d' : Bool), t = t' → d = d' → a = a' →
        determine_status t d a = determine_status t' d' a') := by
  refine ⟨?_, ?_, ?_, ?_, by decide, ?_⟩
  · intro t a d h
    simp [determine_status, h]
  · intro t a h
    simp [determine_status, h]
  · intro t a h h2
    simp [determine_status, h, gt_iff_lt, h2]
  · intro t a h h2
    simp [determine_status, h, gt_iff_lt, not_lt.2 h2]
  · intro t a t' a' d d' h1 h2 h3
    rw [h1, h2, h3]

-- =============================================================================
-- C5: strict threshold comparison
-- =============================================================================

/-- C5: the temperature threshold comparison is strict: with a valid reading
(7 °C), door closed and average exactly equal to the threshold, the resolver
yields `STATUS_OK`; in general, for any valid reading the resolver yields
`STATUS_TOO_WARM` exactly when the door is closed and the average is strictly
greater than `TEMP_OK_MAX_C`. -/
theorem threshold_equality_is_ok :
    determine_status 7 false 7 = .STATUS_OK ∧
    (∀ (t a : ℚ) (d : Bool), sensors_is_reading_valid t = true →
      (determine_status t d a = .STATUS_TOO_WARM ↔
        d = false ∧ TEMP_OK_MAX_C < a)) := by
  refine ⟨by decide, ?_⟩
  intro t a d h
  cases d with
  | true => simp [determine_status, h]
  | false =>
    by_cases h2 : TEMP_OK_MAX_C < a
    · simp [determine_status, h, gt_iff_lt, h2]
    · simp [determine_status, h, gt_iff_lt, h2]

-- =============================================================================
-- C10: inclusive validity range endpoints
-- =============================================================================

/-- C10: sensor validity is inclusive at both endpoints:
`sensors_is_reading_valid t` holds iff `-40 ≤ t ≤ 125`, so readings exactly
equal to `-40.0` or `125.0` are valid and never by themselves make the
resolver return `STATUS_ERROR`. -/
theorem validity_inclusive_endpoints :
    sensors_is_reading_valid TEMP_VALID_MIN_C = true ∧
    sensors_is_reading_valid TEMP_VALID_MAX_C = true ∧
    (∀ t : ℚ, sensors_is_reading_valid t = true ↔
       TEMP_VALID_MIN_C ≤ t ∧ t ≤ TEMP_VALID_MAX_C) ∧
    (∀ (d : Bool) (a : ℚ),
       determine_status TEMP_VALID_MIN_C d a ≠ .STATUS_ERROR) ∧
    (∀ (d : Bool) (a : ℚ),
       determine_status TEMP_VALID_MAX_C d a ≠ .STATUS_ERROR) := by
  have hmin : sensors_is_reading_valid TEMP_VALID_MIN_C = true := by decide
  have hmax : sensors_is_reading_valid TEMP_VALID_MAX_C = true := by decide
  refine ⟨hmin, hmax, ?_, ?_, ?_⟩
  · intro t
    simp [sensors_is_reading_valid]
  · intro d a
    cases d with
    | true => simp [determine_status, hmin]
    | false =>
      simp only [determine_status, hmin, Bool.not_true, Bool.false_eq_true,
        if_false]
      split
      · simp
      · simp
  · intro d a
    cases d with
    | true => simp [determine_status, hmax]
    | false =>
      simp only [determine_status, hmax, Bool.not_true, Bool.false_eq_true,
        if_false]
      split
      · simp
      · simp

-- =============================================================================
-- C6: telemetry line format
-- =============================================================================

/-- C6: the telemetry line for reading 4.3, average 4.1, door closed, status
Ok renders exactly `t=4.3C, avg=4.1C, door=closed, status=OK` (newline
terminated); in general the line is
`t=<reading>C, avg=<average>C, door=<open|closed>, status=<...>` with the
two readings formatted to one decimal place and the four status strings as
listed. -/
theorem telemetry_line_format :
    print_telemetry (43 / 10) (41 / 10) false .STATUS_OK
      = "t=4.3C, avg=4.1C, door=closed, status=OK\n" ∧
    print_telemetry (81 / 10) (73 / 10) true .STATUS_TOO_WARM
      = "t=8.1C, avg=7.3C, door=open, status=TOO_WARM\n" ∧
    (∀ (t a : ℚ) (d : Bool) (st : status_t),
       print_telemetry t a d st
         = "t=" ++ fmt1 t ++ "C, avg=" ++ fmt1 a ++ "C, door="
           ++ (if d then "open" else "closed")
           ++ ", status=" ++ led_status_to_string st ++ "\n") ∧
    led_status_to_string .STATUS_OK = "OK" ∧
    led_status_to_string .STATUS_DOOR_OPEN = "DOOR_OPEN" ∧
    led_status_to_string .STATUS_TOO_WARM = "TOO_WARM" ∧
    led_status_to_string .STATUS_ERROR = "ERROR" := by
  have h43 : fmt1 (43 / 10) = "4.3" := by
    have hy : (10 : ℚ) * (43 / 10) = 43 := by norm_num
    simp only [fmt1, hy, Rat.num_ofNat, Rat.den_ofNat]
    decide
  have h41 : fmt1 (41 / 10) = "4.1" := by
    have hy : (10 : ℚ) * (41 / 10) = 41 := by norm_num
    simp only [fmt1, hy, Rat.num_ofNat, Rat.den_ofNat]
    decide
  have h81 : fmt1 (81 / 10) = "8.1" := by
    have hy : (10 : ℚ) * (81 / 10) = 81 := by norm_num
    simp only [fmt1, hy, Rat.num_ofNat, Rat.den_ofNat]
    decide
  have h73 : fmt1 (73 / 10) = "7.3" := by
    have hy : (10 : ℚ) * (73 / 10) = 73 := by norm_num
    simp only [fmt1, hy, Rat.num_ofNat, Rat.den_ofNat]
    decide
  refine ⟨?_, ?_, ?_, rfl, rfl, rfl, rfl⟩
  · simp only [print_telemetry, h43, h41]
    decide
  · simp only [print_telemetry, h81, h73]
    decide
  · intro t a d st
    rfl

-- =============================================================================
-- C7: debouncer majority contract
-- =============================================================================

/-- C7: for the `DEBOUNCE_SAMPLES` raw door-pin samples read during one
`door_sensor_is_open` call, if all samples agree the returned confirmed state
is the common value, and if the samples are mixed the returned confirmed
state is the majority value among the samples. -/
theorem debounce_majority (samples : List Bool)
    (h : samples.length = DEBOUNCE_SAMPLES) :
    (samples.count true = DEBOUNCE_SAMPLES →
       door_sensor_is_open samples = true) ∧
    (samples.count false = DEBOUNCE_SAMPLES →
       door_sensor_is_open samples = false) ∧
    (0 < samples.count true → 0 < samples.count false →
      (door_sensor_is_open samples = true ↔
        samples.count false < samples.count true)) := by
  have hcc := List.count_true_add_count_false samples
  have h5 : samples.length = 5 := h
  refine ⟨?_, ?_, ?_⟩
  · intro h1
    simp [door_sensor_is_open, h1]
  · intro h1
    have h1' : samples.count false = 5 := h1
    have h0 : samples.count true = 0 := by omega
    simp [door_sensor_is_open, h0, DEBOUNCE_SAMPLES]
  · intro h1 h2
    have hc5 : samples.count true ≠ DEBOUNCE_SAMPLES := by
      show samples.count true ≠ 5
      omega
    have hc0 : samples.count true ≠ 0 := by omega
    simp only [door_sensor_is_open, hc5, hc0, if_false, gt_iff_lt,
      decide_eq_true_eq]
    show 5 / 2 < samples.count true ↔ _
    omega

/-- Witness for C7 at the concrete sample list
`[true, true, false, true, false]` (3 open, 2 closed → majority open). -/
theorem debounce_majority_witness :
    door_sensor_is_open [true, true, false, true, false] = true := by
  have h := debounce_majority [true, true, false, true, false] (by decide)
  exact (h.2.2 (by decide) (by decide)).mpr (by decide)

-- =============================================================================
-- C4: status change resets the pattern state machine
-- =============================================================================

/-- Counterexample to C4 as stated: changing status mid-pattern to
`STATUS_OK` (here from `STATUS_TOO_WARM` with a toggle in progress at
timestamp 137) makes the very next `led_status_update` call assert the new
pattern's level (on), but it does NOT record the current time: `update_ok`
never touches `last_toggle_ms`, which stays at the sentinel 0 rather than
becoming 500. -/
theorem status_change_ok_no_timestamp :
    (led_status_update
      (led_status_set
        { current_status := .STATUS_TOO_WARM, led_on := true,
          last_toggle_ms := 137, error_flash_state := 0 }
        .STATUS_OK) 500).led_on = true ∧
    (led_status_update
      (led_status_set
        { current_status := .STATUS_TOO_WARM, led_on := true,
          last_toggle_ms := 137, error_flash_state := 0 }
        .STATUS_OK) 500).last_toggle_ms = 0 ∧
    (led_status_update
      (led_status_set
        { current_status := .STATUS_TOO_WARM, led_on := true,
          last_toggle_ms := 137, error_flash_state := 0 }
        .STATUS_OK) 500).last_toggle_ms ≠ 500 := by
  decide

/-- C4 (amended): whenever `led_status_set` is called with a status different
from the currently displayed one (including mid-pattern), the machine resets
its phase counter to 0 and its last-change timestamp to the uninitialized
sentinel, and the very next `led_status_update` call immediately asserts the
new pattern's first level (on); for the three timed patterns (everything but
`STATUS_OK`, whose solid-on pattern keeps no timestamp) it also records the
current time. -/
theorem status_change_resets_pattern (s : LedState) (st : status_t)
    (millis : ℕ) (h : st ≠ s.current_status) :
    (led_status_set s st).error_flash_state = 0 ∧
    (led_status_set s st).last_toggle_ms = 0 ∧
    (led_status_set s st).current_status = st ∧
    (led_status_update (led_status_set s st) millis).led_on = true ∧
    (st ≠ .STATUS_OK →
      (led_status_update (led_status_set s st) millis).last_toggle_ms
        = millis) := by
  have hset : led_status_set s st
      = { s with current_status := st, error_flash_state := 0,
                 last_toggle_ms := 0 } := by
    simp [led_status_set, h]
  rw [hset]
  refine ⟨rfl, rfl, rfl, ?_, ?_⟩
  · cases st with
    | STATUS_OK =>
      cases hb : s.led_on <;>
        simp [led_status_update, update_ok, set_led, hb]
    | STATUS_DOOR_OPEN =>
      simp [led_status_update, update_door_open, update_blink, set_led]
    | STATUS_TOO_WARM =>
      simp [led_status_update, update_too_warm, update_blink, set_led]
    | STATUS_ERROR =>
      simp [led_status_update, update_error, set_led]
  · intro hok
    cases st with
    | STATUS_OK => exact absurd rfl hok
    | STATUS_DOOR_OPEN =>
      simp [led_status_update, update_door_open, update_blink, set_led]
    | STATUS_TOO_WARM =>
      simp [led_status_update, update_too_warm, update_blink, set_led]
    | STATUS_ERROR =>
      simp [led_status_update, update_error, set_led]

/-- Witness for C4 (amended) at a concrete input: switching the freshly
initialized machine (displaying `STATUS_OK`) to `STATUS_ERROR` and updating
at time 500 stamps the current time. -/
theorem status_change_resets_pattern_witness :
    (led_status_update (led_status_set led_init .STATUS_ERROR) 500).last_toggle_ms
      = 500 := by
  exact (status_change_resets_pattern led_init .STATUS_ERROR 500
    (by decide)).2.2.2.2 (by decide)

-- =============================================================================
-- C9: ERROR-pattern phase counter invariant
-- =============================================================================

/-- One `ledStep` preserves the indicator invariant: the phase counter stays
in `[0, 6)`, and whenever the timestamp is at the uninitialized sentinel the
phase counter is 0 (so the init branch of `update_error` never resets a
mid-pattern phase). -/
theorem ledStep_preserves_invariant (s : LedState) (op : LedOp)
    (h6 : s.error_flash_state < 6)
    (h0 : s.last_toggle_ms = 0 → s.error_flash_state = 0) :
    (ledStep s op).error_flash_state < 6 ∧
    ((ledStep s op).last_toggle_ms = 0 →
      (ledStep s op).error_flash_state = 0) := by
  cases op with
  | setStatus st =>
    by_cases h : st = s.current_status
    · simp [ledStep, led_status_set, h]
      exact ⟨h6, h0⟩
    · simp [ledStep, led_status_set, h]
  | update m =>
    cases hst : s.current_status with
    | STATUS_OK =>
      cases hb : s.led_on <;>
        simp_all [ledStep, led_status_update, update_ok, set_led]
    | STATUS_DOOR_OPEN =>
      by_cases hz : s.last_toggle_ms = 0
      · simp_all [ledStep, led_status_update, update_door_open, update_blink,
          set_led]
      · simp only [ledStep, led_status_update, hst, update_door_open,
          update_blink, set_led, if_neg hz, LED_SLOW_BLINK_MS]
        split
        · rename_i hge
          refine ⟨h6, fun hm => ?_⟩
          have hm2 : m = 0 := hm
          omega
        · exact ⟨h6, h0⟩
    | STATUS_TOO_WARM =>
      by_cases hz : s.last_toggle_ms = 0
      · simp_all [ledStep, led_status_update, update_too_warm, update_blink,
          set_led]
      · simp only [ledStep, led_status_update, hst, update_too_warm,
          update_blink, set_led, if_neg hz, LED_FAST_BLINK_MS]
        split
        · rename_i hge
          refine ⟨h6, fun hm => ?_⟩
          have hm2 : m = 0 := hm
          omega
        · exact ⟨h6, h0⟩
    | STATUS_ERROR =>
      by_cases hz : s.last_toggle_ms = 0
      · simp_all [ledStep, led_status_update, update_error, set_led]
      · simp only [ledStep, led_status_update, hst, update_error, set_led,
          if_neg hz, LED_ERROR_PAUSE_MS, LED_ERROR_FLASH_MS]
        split <;> split
        · rename_i hp hge
          refine ⟨Nat.mod_lt _ (by omega), fun hm => ?_⟩
          have hm2 : m = 0 := hm
          omega
        · exact ⟨h6, h0⟩
        · rename_i hp hge
          refine ⟨Nat.mod_lt _ (by omega), fun hm => ?_⟩
          have hm2 : m = 0 := hm
          omega
        · exact ⟨h6, h0⟩

/-- The invariant holds along every fold of `ledStep` from a state that
satisfies it. -/
theorem ledRun_aux_invariant (ops : List LedOp) :
    ∀ s : LedState, s.error_flash_state < 6 →
      (s.last_toggle_ms = 0 → s.error_flash_state = 0) →
      ((ops.foldl ledStep s).error_flash_state < 6 ∧
        ((ops.foldl ledStep s).last_toggle_ms = 0 →
          (ops.foldl ledStep s).error_flash_state = 0)) := by
  induction ops with
  | nil => exact fun s h6 h0 => ⟨h6, h0⟩
  | cons op ops ih =>
    intro s h6 h0
    have h := ledStep_preserves_invariant s op h6 h0
    exact ih (ledStep s op) h.1 h.2

/-- C9: in every reachable state of the indicator machine the ERROR-pattern
phase counter is in `[0, 6)`; while the displayed status is `STATUS_ERROR`
and the pattern is initialized, an update advances the phase by exactly one
(mod 6) when a timing boundary is crossed and leaves it unchanged otherwise;
`led_status_set` with the unchanged status is a no-op, and only a status
change resets the phase counter (and timestamp) to 0. -/
theorem error_phase_counter_invariant :
    (∀ ops : List LedOp, (ledRun ops).error_flash_state < 6) ∧
    (∀ ops : List LedOp, (ledRun ops).last_toggle_ms = 0 →
        (ledRun ops).error_flash_state = 0) ∧
    (∀ (s : LedState) (millis : ℕ), s.current_status = .STATUS_ERROR →
        s.last_toggle_ms ≠ 0 →
        (led_status_update s millis).error_flash_state =
          (if errDuration s.error_flash_state ≤ millis - s.last_toggle_ms
           then (s.error_flash_state + 1) % 6
           else s.error_flash_state)) ∧
    (∀ s : LedState, led_status_set s s.current_status = s) ∧
    (∀ (s : LedState) (st : status_t), st ≠ s.current_status →
        (led_status_set s st).error_flash_state = 0 ∧
        (led_status_set s st).last_toggle_ms = 0) := by
  refine ⟨?_, ?_, ?_, ?_, ?_⟩
  · intro ops
    exact (ledRun_aux_invariant ops led_init (by decide) (by decide)).1
  · intro ops
    exact (ledRun_aux_invariant ops led_init (by decide) (by decide)).2
  · intro s millis hst hz
    simp only [led_status_update, hst, update_error, set_led, if_neg hz,
      errDuration, ge_iff_le]
    split <;> split <;> simp_all
  · intro s
    simp [led_status_set]
  · intro s st h
    simp [led_status_set, h]

-- =============================================================================
-- C3: ERROR-pattern boundary sequence
-- =============================================================================

/-- While displaying `STATUS_ERROR` with the pattern initialized, a
`led_status_update` call made exactly when the current phase's duration has
elapsed advances the phase by one (mod 6), stamps the time and drives the
LED on exactly in even phases. -/
theorem update_error_boundary (s : LedState)
    (hst : s.current_status = .STATUS_ERROR) (hpos : 0 < s.last_toggle_ms) :
    led_status_update s (s.last_toggle_ms + errDuration s.error_flash_state)
      = { s with
          error_flash_state := (s.error_flash_state + 1) % 6,
          last_toggle_ms := s.last_toggle_ms + errDuration s.error_flash_state,
          led_on := decide ((s.error_flash_state + 1) % 6 % 2 = 0) } := by
  have hz : ¬ s.last_toggle_ms = 0 := by omega
  simp only [led_status_update, hst, update_error, set_led, if_neg hz,
    errDuration, ge_iff_le]
  split <;> rename_i hp
  · rw [if_pos (by omega)]
  · rw [if_pos (by omega)]

/-- C3: starting from a reset of the indicator machine into `STATUS_ERROR`
(with the first update at any time `t0 > 0`, so the timestamp is off the
sentinel), the `(phase, level)` pairs observed at successive timing
boundaries are `(0, on), (1, off), (2, on), (3, off), (4, on), (5, off)` and
then repeat from `(0, on)`: after the `k`-th boundary the phase is `k % 6`
and the LED is on exactly in even phases; phase 5 lasts
`LED_ERROR_PAUSE_MS` until the next boundary and each of phases 0-4 lasts
`LED_ERROR_FLASH_MS`. -/
theorem error_pattern_sequence (t0 : ℕ) (h : 0 < t0) (k : ℕ) :
    (errorRun t0 k).current_status = .STATUS_ERROR ∧
    (errorRun t0 k).error_flash_state = k % 6 ∧
    (errorRun t0 k).led_on = decide (k % 6 % 2 = 0) ∧
    0 < (errorRun t0 k).last_toggle_ms ∧
    (errorRun t0 (k + 1)).last_toggle_ms
      = (errorRun t0 k).last_toggle_ms
        + (if k % 6 = 5 then LED_ERROR_PAUSE_MS else LED_ERROR_FLASH_MS) := by
  have main : ∀ n : ℕ,
      (errorRun t0 n).current_status = .STATUS_ERROR ∧
      (errorRun t0 n).error_flash_state = n % 6 ∧
      (errorRun t0 n).led_on = decide (n % 6 % 2 = 0) ∧
      0 < (errorRun t0 n).last_toggle_ms := by
    intro n
    induction n with
    | zero =>
      have hset : led_status_set led_init .STATUS_ERROR
          = { current_status := .STATUS_ERROR, led_on := true,
              last_toggle_ms := 0, error_flash_state := 0 } := by decide
      have hupd : errorRun t0 0
          = { current_status := .STATUS_ERROR, led_on := true,
              last_toggle_ms := t0, error_flash_state := 0 } := by
        simp [errorRun, hset, led_status_update, update_error, set_led]
      rw [hupd]
      exact ⟨rfl, rfl, rfl, h⟩
    | succ n ih =>
      obtain ⟨h1, h2, h3, h4⟩ := ih
      have hs := update_error_boundary (errorRun t0 n) h1 h4
      simp only [errorRun, hs]
      refine ⟨h1, ?_, ?_, by omega⟩
      · rw [h2]
        omega
      · rw [h2]
        have he : (n % 6 + 1) % 6 = (n + 1) % 6 := by omega
        rw [he]
  obtain ⟨h1, h2, h3, h4⟩ := main k
  refine ⟨h1, h2, h3, h4, ?_⟩
  have hs := update_error_boundary (errorRun t0 k) h1 h4
  have hstep : errorRun t0 (k + 1)
      = led_status_update (errorRun t0 k)
          ((errorRun t0 k).last_toggle_ms
            + errDuration (errorRun t0 k).error_flash_state) := rfl
  rw [hstep, hs]
  simp [errDuration, h2]

/-- Witness for C3 at `t0 = 1`, `k = 2`: after the second timing boundary the
phase counter is `2 % 6`. -/
theorem error_pattern_sequence_witness :
    (errorRun 1 2).error_flash_state = 2 % 6 :=
  (error_pattern_sequence 1 (by decide) 2).2.1

-- =============================================================================
-- C8: first app_update fires both actions immediately
-- =============================================================================

/-- C8: the first `app_update` call after `app_init` is special-cased:
regardless of the elapsed time it performs the sampling action (store the
reading, push it into the history, recompute the average — which equals the
single reading — read the door, resolve the status and push it to the
indicator) and the reporting action (emit the telemetry line, after the
startup banner), and it initializes both period timers to the current
time. -/
theorem first_update_fires_immediately (millis : ℕ) (temp : ℚ) (door : Bool)
    (led : LedState) :
    (app_update app_init led millis temp door).1.first_update = false ∧
    (app_update app_init led millis temp door).1.last_sample_ms = millis ∧
    (app_update app_init led millis temp door).1.last_telemetry_ms = millis ∧
    (app_update app_init led millis temp door).1.current_temp = temp ∧
    (app_update app_init led millis temp door).1.hist.history_count = 1 ∧
    (app_update app_init led millis temp door).1.average_temp = temp ∧
    (app_update app_init led millis temp door).1.door_open = door ∧
    (app_update app_init led millis temp door).1.current_status
      = determine_status temp door temp ∧
    (app_update app_init led millis temp door).2.1.current_status
      = determine_status temp door temp ∧
    (app_update app_init led millis temp door).2.2
      = ["=== Fridge Probe Started ===\n",
         print_telemetry temp temp door (determine_status temp door temp)] := by
  have havg : calculate_average
      { temp_history := Function.update (fun _ => 0) 0 temp,
        history_head := 1, history_count := 1 } = temp := by
    simp [calculate_average, Function.update_same]
  have hled : (led_status_set led (determine_status temp door temp)).current_status
      = determine_status temp door temp := by
    by_cases hc : determine_status temp door temp = led.current_status <;>
      simp [led_status_set, hc]
  refine ⟨?_, ?_, ?_, ?_, ?_, ?_, ?_, ?_, ?_, ?_⟩ <;>
    simp [app_update, app_init, havg, hled, add_to_history, historyInit,
      HISTORY_BUFFER_SIZE]

-- =============================================================================
-- C2: rolling average over the circular buffer
-- =============================================================================

/-- Projection: the count after `add_to_history`. -/
theorem add_to_history_count (s : HistoryState) (x : ℚ) :
    (add_to_history s x).history_count =
      if s.history_count < HISTORY_BUFFER_SIZE then s.history_count + 1
      else s.history_count := rfl

/-- Projection: the head after `add_to_history`. -/
theorem add_to_history_head (s : HistoryState) (x : ℚ) :
    (add_to_history s x).history_head
      = (s.history_head + 1) % HISTORY_BUFFER_SIZE := rfl

/-- Projection: the array after `add_to_history`. -/
theorem add_to_history_fn (s : HistoryState) (x : ℚ) :
    (add_to_history s x).temp_history
      = Function.update s.temp_history s.history_head x := rfl

/-- Summing the first `m` positions of a list by index equals summing its
`m`-element prefix. -/
theorem sum_range_getD :
    ∀ (t : List ℚ) (m : ℕ), m ≤ t.length →
      ∑ j in Finset.range m, t.getD j 0 = (t.take m).sum := by
  intro t
  induction t with
  | nil =>
    intro m hm
    have h0 : m = 0 := by simpa using hm
    simp [h0]
  | cons a t ih =>
    intro m hm
    cases m with
    | zero => simp
    | succ m =>
      rw [Finset.sum_range_succ']
      simp only [List.getD_cons_succ, List.getD_cons_zero,
        List.take_succ_cons, List.sum_cons]
      rw [ih m (by simpa using hm)]
      ring

/-- After pushing the list `l` (in chronological order) into the reset
buffer: the count is `min |l| capacity`, the head is `|l| mod capacity`, and
for every `j` below the count, the slot `(|l| - 1 - j) mod capacity` holds
the `j`-th most recent push. -/
theorem pushAll_invariant (l : List ℚ) :
    (pushAll l).history_count = min l.length HISTORY_BUFFER_SIZE ∧
    (pushAll l).history_head = l.length % HISTORY_BUFFER_SIZE ∧
    ∀ j, j < min l.length HISTORY_BUFFER_SIZE →
      (pushAll l).temp_history ((l.length - 1 - j) % HISTORY_BUFFER_SIZE)
        = l.reverse.getD j 0 := by
  induction l using List.reverseRecOn with
  | nil =>
    refine ⟨rfl, rfl, ?_⟩
    intro j hj
    simp at hj
  | append_singleton l a ih =>
    obtain ⟨ihc, ihh, ihp⟩ := ih
    have hpush : pushAll (l ++ [a]) = add_to_history (pushAll l) a := by
      simp [pushAll, List.foldl_append]
    have hlen : (l ++ [a]).length = l.length + 1 := by simp
    have hrev : (l ++ [a]).reverse = a :: l.reverse := by simp
    refine ⟨?_, ?_, ?_⟩
    · rw [hpush, add_to_history_count, ihc, hlen]
      unfold HISTORY_BUFFER_SIZE
      split <;> omega
    · rw [hpush, add_to_history_head, ihh, hlen]
      unfold HISTORY_BUFFER_SIZE
      omega
    · intro j hj
      rw [hlen] at hj
      rw [hpush, add_to_history_fn, ihh, hlen, hrev]
      cases j with
      | zero =>
        have hidx : l.length + 1 - 1 - 0 = l.length := by omega
        rw [hidx, Function.update_same, List.getD_cons_zero]
      | succ j =>
        have hne : (l.length + 1 - 1 - (j + 1)) % HISTORY_BUFFER_SIZE
            ≠ l.length % HISTORY_BUFFER_SIZE := by
          unfold HISTORY_BUFFER_SIZE at *
          omega
        rw [Function.update_noteq hne]
        have hidx : l.length + 1 - 1 - (j + 1) = l.length - 1 - j := by omega
        rw [hidx, List.getD_cons_succ]
        exact ihp j (by unfold HISTORY_BUFFER_SIZE at *; omega)

/-- The sum computed by `calculate_average` (positions `0 .. count - 1` of
the array) equals the sum of the most recent `min |l| capacity` pushes. -/
theorem pushAll_sum (l : List ℚ) :
    ∑ i in Finset.range (pushAll l).history_count, (pushAll l).temp_history i
      = (l.reverse.take HISTORY_BUFFER_SIZE).sum := by
  obtain ⟨hc, hh, hp⟩ := pushAll_invariant l
  by_cases hn : l.length ≤ HISTORY_BUFFER_SIZE
  · have hcn : (pushAll l).history_count = l.length := by
      rw [hc]
      omega
    have hpt : ∀ i, i < l.length →
        (pushAll l).temp_history i
          = l.reverse.getD (l.length - 1 - i) 0 := by
      intro i hi
      have h1 := hp (l.length - 1 - i)
        (by unfold HISTORY_BUFFER_SIZE at *; omega)
      have hidx : (l.length - 1 - (l.length - 1 - i)) % HISTORY_BUFFER_SIZE
          = i := by
        unfold HISTORY_BUFFER_SIZE at *
        omega
      rw [hidx] at h1
      exact h1
    rw [hcn]
    have e1 : ∑ i in Finset.range l.length, (pushAll l).temp_history i
        = ∑ i in Finset.range l.length,
            l.reverse.getD (l.length - 1 - i) 0 :=
      Finset.sum_congr rfl (fun i hi => hpt i (Finset.mem_range.1 hi))
    have e2 : ∑ i in Finset.range l.length, l.reverse.getD (l.length - 1 - i) 0
        = ∑ j in Finset.range l.length, l.reverse.getD j 0 := by
      refine Finset.sum_nbij' (fun i => l.length - 1 - i)
        (fun j => l.length - 1 - j) ?_ ?_ ?_ ?_ ?_
      · intro i hi
        simp only [Finset.mem_range] at *
        omega
      · intro j hj
        simp only [Finset.mem_range] at *
        omega
      · intro i hi
        simp only [Finset.mem_range] at hi
        show l.length - 1 - (l.length - 1 - i) = i
        omega
      · intro j hj
        simp only [Finset.mem_range] at hj
        show l.length - 1 - (l.length - 1 - j) = j
        omega
      · intro i hi
        rfl
    rw [e1, e2, sum_range_getD l.reverse l.length (by simp),
      List.take_of_length_le (by simp),
      List.take_of_length_le (by simp [hn])]
  · push_neg at hn
    have hcn : (pushAll l).history_count = HISTORY_BUFFER_SIZE := by
      rw [hc]
      omega
    have hpt : ∀ i, i < HISTORY_BUFFER_SIZE →
        (pushAll l).temp_history i
          = l.reverse.getD ((l.length - 1 - i) % HISTORY_BUFFER_SIZE) 0 := by
      intro i hi
      have h1 := hp ((l.length - 1 - i) % HISTORY_BUFFER_SIZE)
        (by unfold HISTORY_BUFFER_SIZE at *; omega)
      have hidx : (l.length - 1 - ((l.length - 1 - i) % HISTORY_BUFFER_SIZE))
          % HISTORY_BUFFER_SIZE = i := by
        unfold HISTORY_BUFFER_SIZE at *
        omega
      rw [hidx] at h1
      exact h1
    rw [hcn]
    have e1 : ∑ i in Finset.range HISTORY_BUFFER_SIZE,
          (pushAll l).temp_history i
        = ∑ i in Finset.range HISTORY_BUFFER_SIZE,
            l.reverse.getD ((l.length - 1 - i) % HISTORY_BUFFER_SIZE) 0 :=
      Finset.sum_congr rfl (fun i hi => hpt i (Finset.mem_range.1 hi))
    have e2 : ∑ i in Finset.range HISTORY_BUFFER_SIZE,
          l.reverse.getD ((l.length - 1 - i) % HISTORY_BUFFER_SIZE) 0
        = ∑ j in Finset.range HISTORY_BUFFER_SIZE, l.reverse.getD j 0 := by
      refine Finset.sum_nbij'
        (fun i => (l.length - 1 - i) % HISTORY_BUFFER_SIZE)
        (fun j => (l.length - 1 - j) % HISTORY_BUFFER_SIZE)
        ?_ ?_ ?_ ?_ ?_
      · intro i hi
        simp only [Finset.mem_range] at *
        unfold HISTORY_BUFFER_SIZE at *
        omega
      · intro j hj
        simp only [Finset.mem_range] at *
        unfold HISTORY_BUFFER_SIZE at *
        omega
      · intro i hi
        simp only [Finset.mem_range] at hi
        show (l.length - 1 - ((l.length - 1 - i) % HISTORY_BUFFER_SIZE))
            % HISTORY_BUFFER_SIZE = i
        unfold HISTORY_BUFFER_SIZE at *
        omega
      · intro j hj
        simp only [Finset.mem_range] at hj
        show (l.length - 1 - ((l.length - 1 - j) % HISTORY_BUFFER_SIZE))
            % HISTORY_BUFFER_SIZE = j
        unfold HISTORY_BUFFER_SIZE at *
        omega
      · intro i hi
        rfl
    rw [e1, e2, sum_range_getD l.reverse HISTORY_BUFFER_SIZE (by simp; omega)]

/-- C2: for every sequence of pushes into the rolling-average buffer, the
count is `min(number of pushes, capacity)` and never exceeds the capacity;
`calculate_average` returns 0 for zero pushes and otherwise exactly the
arithmetic mean of the most recent `min(number of pushes, capacity)` pushed
values (no zero-padding during warm-up); and once the buffer is full, the
slot the next push will overwrite (at `history_head`) holds exactly the
oldest retained value, so each push evicts exactly the oldest entry. -/
theorem rolling_average_mean (l : List ℚ) :
    (pushAll l).history_count = min l.length HISTORY_BUFFER_SIZE ∧
    (pushAll l).history_count ≤ HISTORY_BUFFER_SIZE ∧
    calculate_average (pushAll l)
      = (if l.length = 0 then 0
         else (l.reverse.take HISTORY_BUFFER_SIZE).sum
           / ((min l.length HISTORY_BUFFER_SIZE : ℕ) : ℚ)) ∧
    (HISTORY_BUFFER_SIZE ≤ l.length →
      (pushAll l).temp_history (pushAll l).history_head
        = l.reverse.getD (HISTORY_BUFFER_SIZE - 1) 0) := by
  obtain ⟨hc, hh, hp⟩ := pushAll_invariant l
  refine ⟨hc, ?_, ?_, ?_⟩
  · rw [hc]
    unfold HISTORY_BUFFER_SIZE
    omega
  · by_cases h0 : l.length = 0
    · have hnil : l = [] := List.length_eq_zero.1 h0
      subst hnil
      simp [calculate_average, pushAll, historyInit]
    · rw [if_neg h0]
      unfold calculate_average
      rw [pushAll_sum, hc]
      rw [if_neg (by unfold HISTORY_BUFFER_SIZE; omega :
        ¬ min l.length HISTORY_BUFFER_SIZE = 0)]
  · intro hge
    have h1 := hp (HISTORY_BUFFER_SIZE - 1)
      (by unfold HISTORY_BUFFER_SIZE at *; omega)
    have hidx : (l.length - 1 - (HISTORY_BUFFER_SIZE - 1)) % HISTORY_BUFFER_SIZE
        = l.length % HISTORY_BUFFER_SIZE := by
      unfold HISTORY_BUFFER_SIZE at *
      omega
    rw [hidx] at h1
    rw [hh]
    exact h1
